import Mathlib

/-
  Verification of the frame-rendering orchestrator
  (src/src/Frontend/Renderers/GameRenderer/Renderer.ts).

  The orchestrator is shallowly embedded: the per-frame `draw()` body is
  modelled as the list of operations it performs (in source order), the
  singleton lifecycle (`initialize` / `destroy` / `loop`) as explicit state
  passing over a `World` that models `Renderer.instance` and the host
  scheduler (`requestAnimationFrame` / `cancelAnimationFrame`), and the
  queue/flush batching protocol as explicit per-batcher command queues.
-/

namespace DFView

/-- Model of `GameUIManager`, the external state provider: it supplies
`getLocationsAndChunks()` (the scene snapshot) and an optional plugin
manager via `getPluginManager()`. Locations, chunks and the plugin manager
are modelled as opaque identifiers. -/
structure GameUIManager where
  locations : List Nat
  chunks : List Nat
  pluginManager : Option Nat
deriving DecidableEq

/-- The mutable fields of a `Renderer` instance that the orchestration logic
reads or writes: `frameCount`, `now` (the per-frame timestamp),
`frameRequestId` (the handle returned by the scheduler), the overlay
surface's 2D drawing context (`overlay2dRenderer.ctx`, opaque id), and the
`gameUIManager` reference. -/
structure RendererState where
  frameCount : Nat
  now : Nat
  frameRequestId : Nat
  overlayCtx : Nat
  gameUIManager : GameUIManager
deriving DecidableEq

/-- One observable operation performed during a loop iteration, in the
vocabulary of `Renderer.loop` / `Renderer.draw`. -/
inductive RenderEvent where
  | incrementFrameCount
  | sampleNow (t : Nat)
  | setProjectionMatrix
  | clearOverlay
  | clearGl
  | getLocationsAndChunks
  | drawChunks (chunks : List Nat)
  | queueBorders
  | queueSelectedRangeRing
  | queueSelectedRect
  | queueHoveringRect
  | queueMousePath
  | drawMiner
  | queueVoyages
  | queueWormholes
  | queuePlanets (locations : List Nat) (now : Nat)
  | flushLine
  | flushPlanetManager
  | flushCircle
  | flushRect
  | flushText
  | flushSprite
  | getPluginManager
  | drawAllRunningPlugins (ctx : Nat)
  | requestNextFrame
deriving DecidableEq

/-- The body of `Renderer.draw()`, transcribed operation by operation from
the source (lines 150-190): projection matrix, clears, snapshot, background,
UI queue calls and the direct miner draw, voyage / wormhole / planet queue
calls, the six flushes in source order, and finally
`getPluginManager()?.drawAllRunningPlugins(overlay2dRenderer.ctx)`. -/
def drawTrace (r : RendererState) : List RenderEvent :=
  [RenderEvent.setProjectionMatrix,
   RenderEvent.clearOverlay,
   RenderEvent.clearGl,
   RenderEvent.getLocationsAndChunks,
   RenderEvent.drawChunks r.gameUIManager.chunks,
   RenderEvent.queueBorders,
   RenderEvent.queueSelectedRangeRing,
   RenderEvent.queueSelectedRect,
   RenderEvent.queueHoveringRect,
   RenderEvent.queueMousePath,
   RenderEvent.drawMiner,
   RenderEvent.queueVoyages,
   RenderEvent.queueWormholes,
   RenderEvent.queuePlanets r.gameUIManager.locations r.now,
   RenderEvent.flushLine,
   RenderEvent.flushPlanetManager,
   RenderEvent.flushCircle,
   RenderEvent.flushRect,
   RenderEvent.flushText,
   RenderEvent.flushSprite,
   RenderEvent.getPluginManager] ++
  (match r.gameUIManager.pluginManager with
   | some _ => [RenderEvent.drawAllRunningPlugins r.overlayCtx]
   | none => [])

/-- Model of the host scheduler and the `Renderer.instance` static field:
`pending` is the set (list) of scheduled-but-not-cancelled animation frame
callbacks, `nextRequestId` the source of fresh handles, `clock` the value
`Date.now()` returns. -/
structure World where
  activeInstance : Option RendererState
  pending : List Nat
  nextRequestId : Nat
  clock : Nat
deriving DecidableEq

/-- `window.requestAnimationFrame`: schedules a callback and returns a fresh
handle. -/
def requestAnimationFrame (w : World) : World × Nat :=
  ({ w with
      pending := w.pending ++ [w.nextRequestId],
      nextRequestId := w.nextRequestId + 1 },
   w.nextRequestId)

/-- `window.cancelAnimationFrame`: removes the callback with the given
handle from the pending set. -/
def cancelAnimationFrame (w : World) (id : Nat) : World :=
  { w with pending := w.pending.filter (fun i => i ≠ id) }

/-- The renderer state as it is during the draw phase of one loop iteration:
`loop()` first increments `frameCount`, then samples `Date.now()` into
`this.now`, and only then calls `draw()` (source lines 138-140). -/
def loopDrawState (r : RendererState) (w : World) : RendererState :=
  { r with frameCount := r.frameCount + 1, now := w.clock }

/-- One iteration of `Renderer.loop()`: increment the frame counter, sample
the clock once, run the draw phase, then reschedule via
`requestAnimationFrame`, storing the returned handle in `frameRequestId`.
Returns the updated renderer, the updated world, and the iteration's
operation trace. -/
def loopStep (r : RendererState) (w : World) : RendererState × World × List RenderEvent :=
  let r1 := loopDrawState r w
  let events := [RenderEvent.incrementFrameCount, RenderEvent.sampleNow w.clock]
    ++ drawTrace r1 ++ [RenderEvent.requestNextFrame]
  let p := requestAnimationFrame w
  ({ r1 with frameRequestId := p.2 }, p.1, events)

/-- The field initialisation performed by the `Renderer` constructor before
`setup()` runs: `frameCount = 0`, `now = Date.now()` (source lines 83-84). -/
def mkInitialState (ui : GameUIManager) (octx : Nat) (w : World) : RendererState :=
  { frameCount := 0, now := w.clock, frameRequestId := 0,
    overlayCtx := octx, gameUIManager := ui }

/-- `new Renderer(...)`: field initialisation, then `setup()`, whose last
statement is the first (synchronous) `loop()` call. -/
def constructRenderer (ui : GameUIManager) (octx : Nat) (w : World) :
    RendererState × World :=
  let r0 := mkInitialState ui octx w
  let s := loopStep r0 w
  (s.1, s.2.1)

/-- `Renderer.initialize(...)`: constructs the renderer (which synchronously
runs the first loop iteration), then assigns `Renderer.instance`, then
returns the new instance (source lines 125-135). -/
def initRenderer (ui : GameUIManager) (octx : Nat) (w : World) :
    RendererState × World :=
  let c := constructRenderer ui octx w
  (c.1, { c.2 with activeInstance := some c.1 })

/-- `Renderer.destroy()`: if an instance is active, cancel its pending
animation-frame callback; in all cases set `Renderer.instance = null`
(source lines 118-123). -/
def destroy (w : World) : World :=
  match w.activeInstance with
  | some r => { cancelAnimationFrame w r.frameRequestId with activeInstance := none }
  | none => { w with activeInstance := none }

/-- `Renderer.debug(interval)` (source lines 193-195):
`frameCount % interval === 0`. -/
def debug (r : RendererState) (interval : Nat) : Bool :=
  r.frameCount % interval == 0

/-- `debug()` with the default argument `interval = 120`. -/
def debugDefault (r : RendererState) : Bool :=
  debug r 120

/-! ### The queue/flush batching protocol

The six batches flushed by `draw()` (source lines 181-186): the line,
circle, rect, text and sprite primitive batchers and the planet render
manager's own batch. A queue call appends a command to one batch; the
flush sequence emits each batch's contents in insertion order, in the
fixed order line, planet-manager batch, circle, rect, text, sprite. -/

/-- The six batches that `draw()` flushes, identified by flush position. -/
inductive Batcher where
  | line
  | planetManagerBatch
  | circle
  | rect
  | text
  | sprite
deriving DecidableEq

/-- The pending command queues of the six batches. Commands are opaque
identifiers. -/
structure BatchQueues where
  lineQ : List Nat
  planetQ : List Nat
  circleQ : List Nat
  rectQ : List Nat
  textQ : List Nat
  spriteQ : List Nat
deriving DecidableEq

/-- All six batches empty, as at the start of a frame's queue phase. -/
def emptyQueues : BatchQueues :=
  ⟨[], [], [], [], [], []⟩

/-- The pending queue of one batch. -/
def getQueue (s : BatchQueues) : Batcher → List Nat
  | Batcher.line => s.lineQ
  | Batcher.planetManagerBatch => s.planetQ
  | Batcher.circle => s.circleQ
  | Batcher.rect => s.rectQ
  | Batcher.text => s.textQ
  | Batcher.sprite => s.spriteQ

/-- A `queue(...)` call: append one command to one batch's pending queue. -/
def queueCommand (s : BatchQueues) : Batcher → Nat → BatchQueues
  | Batcher.line, c => { s with lineQ := s.lineQ ++ [c] }
  | Batcher.planetManagerBatch, c => { s with planetQ := s.planetQ ++ [c] }
  | Batcher.circle, c => { s with circleQ := s.circleQ ++ [c] }
  | Batcher.rect, c => { s with rectQ := s.rectQ ++ [c] }
  | Batcher.text, c => { s with textQ := s.textQ ++ [c] }
  | Batcher.sprite, c => { s with spriteQ := s.spriteQ ++ [c] }

/-- Run a frame's `queue*()` calls, in issue order, against the batches. -/
def runQueueCalls (s : BatchQueues) : List (Batcher × Nat) → BatchQueues
  | [] => s
  | p :: rest => runQueueCalls (queueCommand s p.1 p.2) rest

/-- The drawn output of the fixed flush sequence of `draw()`: each batch's
commands in insertion order, line batch first, then the planet manager's
batch, then circle, rect, text, sprite (later segments drawn on top). -/
def flushAll (s : BatchQueues) : List Nat :=
  s.lineQ ++ s.planetQ ++ s.circleQ ++ s.rectQ ++ s.textQ ++ s.spriteQ

/-- The commands a sequence of queue calls directs at one batch, in issue
order. -/
def commandsFor (b : Batcher) (calls : List (Batcher × Nat)) : List Nat :=
  (calls.filter (fun p => p.1 == b)).map (fun p => p.2)

/-- Is this event one of the `queue*()` calls of the draw phase? -/
def isQueueEvent : RenderEvent → Bool
  | RenderEvent.queueBorders => true
  | RenderEvent.queueSelectedRangeRing => true
  | RenderEvent.queueSelectedRect => true
  | RenderEvent.queueHoveringRect => true
  | RenderEvent.queueMousePath => true
  | RenderEvent.queueVoyages => true
  | RenderEvent.queueWormholes => true
  | RenderEvent.queuePlanets _ _ => true
  | _ => false

/-- Is this event one of the six `flush()` calls of the draw phase? -/
def isFlushEvent : RenderEvent → Bool
  | RenderEvent.flushLine => true
  | RenderEvent.flushPlanetManager => true
  | RenderEvent.flushCircle => true
  | RenderEvent.flushRect => true
  | RenderEvent.flushText => true
  | RenderEvent.flushSprite => true
  | _ => false

/-- Is this event a `Date.now()` sample? -/
def isSampleEvent : RenderEvent → Bool
  | RenderEvent.sampleNow _ => true
  | _ => false

/-- Is this event a `drawAllRunningPlugins` call? -/
def isPluginDrawEvent : RenderEvent → Bool
  | RenderEvent.drawAllRunningPlugins _ => true
  | _ => false

/-- True when no `queue*()` event occurs at or after the first `flush()`
event of the trace. -/
def flushesAfterQueues : List RenderEvent → Bool
  | [] => true
  | e :: rest =>
    if isFlushEvent e then rest.all (fun x => !isQueueEvent x)
    else flushesAfterQueues rest

/-- The timestamps passed to `planetRenderManager.queuePlanets` in a
trace. -/
def planetTimes (l : List RenderEvent) : List Nat :=
  l.filterMap (fun e =>
    match e with
    | RenderEvent.queuePlanets _ t => some t
    | _ => none)

/-! ### Construction order -/

/-- The sub-component constructions and lifecycle actions performed by
`Renderer`'s constructor / `setup()` / `initialize()`. -/
inductive LifecycleEvent where
  | newGameGLManager
  | newOverlay2DRenderer
  | newBackgroundRenderer
  | newPlanetRenderer
  | newAsteroidRenderer
  | newBeltRenderer
  | newMineRenderer
  | newSpriteRenderer
  | newQuasarRenderer
  | newSpacetimeRipRenderer
  | newRuinsRenderer
  | newRingRenderer
  | newBlackDomainRenderer
  | newLineRenderer
  | newCircleRenderer
  | newRectRenderer
  | newTextRenderer
  | newVoyageRenderer
  | newWormholeRenderer
  | newPlanetRenderManager
  | newUIRenderer
  | startLoop
  | installSingleton
deriving DecidableEq

/-- The statements of `setup()` in source order (lines 93-115): entity
renderers, then the four shared primitive batchers, then the four render
managers, then the first `loop()` call. -/
def setupTrace : List LifecycleEvent :=
  [LifecycleEvent.newBackgroundRenderer,
   LifecycleEvent.newPlanetRenderer,
   LifecycleEvent.newAsteroidRenderer,
   LifecycleEvent.newBeltRenderer,
   LifecycleEvent.newMineRenderer,
   LifecycleEvent.newSpriteRenderer,
   LifecycleEvent.newQuasarRenderer,
   LifecycleEvent.newSpacetimeRipRenderer,
   LifecycleEvent.newRuinsRenderer,
   LifecycleEvent.newRingRenderer,
   LifecycleEvent.newBlackDomainRenderer,
   LifecycleEvent.newLineRenderer,
   LifecycleEvent.newCircleRenderer,
   LifecycleEvent.newRectRenderer,
   LifecycleEvent.newTextRenderer,
   LifecycleEvent.newVoyageRenderer,
   LifecycleEvent.newWormholeRenderer,
   LifecycleEvent.newPlanetRenderManager,
   LifecycleEvent.newUIRenderer,
   LifecycleEvent.startLoop]

/-- The constructor's actions (lines 74-89): graphics context manager and
overlay compositor first, then `setup()`. -/
def constructorTrace : List LifecycleEvent :=
  [LifecycleEvent.newGameGLManager, LifecycleEvent.newOverlay2DRenderer]
    ++ setupTrace

/-- The actions of `Renderer.initialize` (lines 125-135): the constructor
runs to completion (its last action being the synchronous first `loop()`),
and only then is `Renderer.instance` assigned. -/
def initTrace : List LifecycleEvent :=
  constructorTrace ++ [LifecycleEvent.installSingleton]

/-- The draw phase as the specification words it, step by step: (1) set the
projection matrix; (2) clear the overlay surface, then the primary context;
(3) pull the scene snapshot; (4) draw background chunks immediately;
(5) queue UI borders, selected-range ring, selected rect, hovering rect and
mouse path, then draw the miner directly to the overlay; (6) queue voyages;
(7) queue wormholes; (8) queue planets with the snapshot's locations and
the frame's captured timestamp; (9) flush line, planet-manager batch,
circle, rect, text, sprite in that fixed order; (10) invoke the plugin
hook (which calls `drawAllRunningPlugins` when a plugin manager is
present). -/
def specDrawPhase (r : RendererState) : List RenderEvent :=
  [RenderEvent.setProjectionMatrix]
    ++ [RenderEvent.clearOverlay, RenderEvent.clearGl]
    ++ [RenderEvent.getLocationsAndChunks]
    ++ [RenderEvent.drawChunks r.gameUIManager.chunks]
    ++ [RenderEvent.queueBorders, RenderEvent.queueSelectedRangeRing,
        RenderEvent.queueSelectedRect, RenderEvent.queueHoveringRect,
        RenderEvent.queueMousePath, RenderEvent.drawMiner]
    ++ [RenderEvent.queueVoyages]
    ++ [RenderEvent.queueWormholes]
    ++ [RenderEvent.queuePlanets r.gameUIManager.locations r.now]
    ++ [RenderEvent.flushLine, RenderEvent.flushPlanetManager,
        RenderEvent.flushCircle, RenderEvent.flushRect,
        RenderEvent.flushText, RenderEvent.flushSprite]
    ++ ([RenderEvent.getPluginManager]
        ++ match r.gameUIManager.pluginManager with
           | some _ => [RenderEvent.drawAllRunningPlugins r.overlayCtx]
           | none => [])

/-- A concrete state provider with one location, one chunk and a plugin
manager, for instantiating the theorems. -/
def sampleUI : GameUIManager :=
  { locations := [5], chunks := [7], pluginManager := some 0 }

/-- A concrete renderer state on frame 240, for instantiating the
theorems. -/
def sampleState : RendererState :=
  { frameCount := 240, now := 1000, frameRequestId := 3,
    overlayCtx := 9, gameUIManager := sampleUI }

/-- A concrete world in which `sampleState` is the active instance and its
callback 3 is pending. -/
def sampleWorld : World :=
  { activeInstance := some sampleState, pending := [3],
    nextRequestId := 4, clock := 1000 }

/-! ### Helper lemmas about the batching protocol -/

theorem getQueue_queueCommand (s : BatchQueues) (b' b : Batcher) (c : Nat) :
    getQueue (queueCommand s b' c) b =
      if b' == b then getQueue s b ++ [c] else getQueue s b := by
  cases b' <;> cases b <;> simp [queueCommand, getQueue]

theorem commandsFor_cons (b : Batcher) (p : Batcher × Nat)
    (rest : List (Batcher × Nat)) :
    commandsFor b (p :: rest) =
      if p.1 == b then p.2 :: commandsFor b rest else commandsFor b rest := by
  by_cases h : p.1 == b <;> simp [commandsFor, h]

theorem getQueue_runQueueCalls (calls : List (Batcher × Nat))
    (s : BatchQueues) (b : Batcher) :
    getQueue (runQueueCalls s calls) b = getQueue s b ++ commandsFor b calls := by
  induction calls generalizing s with
  | nil => simp [runQueueCalls, commandsFor]
  | cons p rest ih =>
    rw [runQueueCalls, ih, getQueue_queueCommand, commandsFor_cons]
    by_cases h : p.1 == b <;> simp [h]

theorem getQueue_emptyQueues (b : Batcher) : getQueue emptyQueues b = [] := by
  cases b <;> rfl

theorem getQueue_run_empty (calls : List (Batcher × Nat)) (b : Batcher) :
    getQueue (runQueueCalls emptyQueues calls) b = commandsFor b calls := by
  rw [getQueue_runQueueCalls, getQueue_emptyQueues, List.nil_append]

theorem flushAll_getQueue (s : BatchQueues) :
    flushAll s =
      getQueue s Batcher.line ++ getQueue s Batcher.planetManagerBatch
        ++ getQueue s Batcher.circle ++ getQueue s Batcher.rect
        ++ getQueue s Batcher.text ++ getQueue s Batcher.sprite := rfl

/-- `destroy()` is the identity when no instance is active (it only rewrites
`Renderer.instance`, which is already `null`). -/
theorem destroy_of_none (w : World) (h : w.activeInstance = none) :
    destroy w = w := by
  obtain ⟨a, p, n, c⟩ := w
  cases a with
  | none => rfl
  | some r => exact Option.noConfusion h

/-! ### Claims -/

/-- C1: the flushed output of a frame equals the line-batch contents, then
the planet-manager batch, then circle, rect, text, sprite contents (later
flush drawn on top); it depends only on the per-batch command sequences and
not on the interleaving of queue calls among managers; and in the draw
phase every flush call comes after every queue call. -/
theorem flush_order_stacking_c1 (calls calls2 : List (Batcher × Nat))
    (r : RendererState) :
    flushAll (runQueueCalls emptyQueues calls)
      = commandsFor Batcher.line calls
        ++ commandsFor Batcher.planetManagerBatch calls
        ++ commandsFor Batcher.circle calls
        ++ commandsFor Batcher.rect calls
        ++ commandsFor Batcher.text calls
        ++ commandsFor Batcher.sprite calls
    ∧ ((∀ b, commandsFor b calls = commandsFor b calls2) →
        flushAll (runQueueCalls emptyQueues calls)
          = flushAll (runQueueCalls emptyQueues calls2))
    ∧ flushesAfterQueues (drawTrace r) = true := by
  refine ⟨?_, ?_, ?_⟩
  · rw [flushAll_getQueue]
    simp [getQueue_run_empty]
  · intro h
    rw [flushAll_getQueue, flushAll_getQueue]
    simp [getQueue_run_empty, h]
  · cases h : r.gameUIManager.pluginManager <;>
      simp [drawTrace, h, flushesAfterQueues, isFlushEvent, isQueueEvent]

/-- C1 witness: two interleavings of the same queue calls (circle before
line versus line before circle) produce the same flushed output. -/
theorem flush_order_stacking_c1_witness :
    flushAll (runQueueCalls emptyQueues [(Batcher.circle, 1), (Batcher.line, 2)])
      = flushAll (runQueueCalls emptyQueues [(Batcher.line, 2), (Batcher.circle, 1)]) :=
  (flush_order_stacking_c1 [(Batcher.circle, 1), (Batcher.line, 2)]
      [(Batcher.line, 2), (Batcher.circle, 1)] sampleState).2.1
    (fun b => by cases b <;> decide)

/-- C2: every draw phase performs exactly the ten-step sequence of the
specification, in that order: projection matrix, clears (overlay then
primary), snapshot pull, background, UI queue calls and miner, voyages,
wormholes, planets with the captured timestamp, the six flushes in fixed
order, then the plugin hook. -/
theorem draw_phase_sequence_c2 (r : RendererState) :
    drawTrace r = specDrawPhase r := by
  obtain ⟨fc, nw, fri, octx, ⟨locs, chunks, pm⟩⟩ := r
  cases pm <;> rfl

/-- C3 counterexample: the claim says `initialize` installs the singleton
and then starts the render loop, but in `initTrace` the `loop()` call (the
last statement of `setup()`, inside the constructor) comes strictly before
the `Renderer.instance` assignment, so `installSingleton` does not precede
`startLoop`. -/
theorem init_singleton_before_loop_c3_cex :
    ¬ (List.indexOf LifecycleEvent.installSingleton initTrace
        < List.indexOf LifecycleEvent.startLoop initTrace) := by
  decide

/-- C3 (amended): `initialize` constructs the sub-components in the fixed
dependency order (graphics context manager and overlay compositor first,
primitives before managers), starts the render loop while still inside the
constructor, and only then installs the new instance as the singleton and
returns it; after `initialize` returns, the singleton reference equals the
returned instance. -/
theorem init_order_amended_c3 (ui : GameUIManager) (octx : Nat) (w : World) :
    initTrace
      = [LifecycleEvent.newGameGLManager, LifecycleEvent.newOverlay2DRenderer,
         LifecycleEvent.newBackgroundRenderer, LifecycleEvent.newPlanetRenderer,
         LifecycleEvent.newAsteroidRenderer, LifecycleEvent.newBeltRenderer,
         LifecycleEvent.newMineRenderer, LifecycleEvent.newSpriteRenderer,
         LifecycleEvent.newQuasarRenderer, LifecycleEvent.newSpacetimeRipRenderer,
         LifecycleEvent.newRuinsRenderer, LifecycleEvent.newRingRenderer,
         LifecycleEvent.newBlackDomainRenderer,
         LifecycleEvent.newLineRenderer, LifecycleEvent.newCircleRenderer,
         LifecycleEvent.newRectRenderer, LifecycleEvent.newTextRenderer,
         LifecycleEvent.newVoyageRenderer, LifecycleEvent.newWormholeRenderer,
         LifecycleEvent.newPlanetRenderManager, LifecycleEvent.newUIRenderer,
         LifecycleEvent.startLoop, LifecycleEvent.installSingleton]
    ∧ List.indexOf LifecycleEvent.startLoop initTrace
        < List.indexOf LifecycleEvent.installSingleton initTrace
    ∧ (initRenderer ui octx w).2.activeInstance
        = some (initRenderer ui octx w).1 :=
  ⟨by decide, by decide, rfl⟩

/-- C4: `destroy()` cancels the active instance's pending scheduled callback
and clears the singleton; with no active instance it is a no-op; and calling
it twice in a row is safe, leaving the singleton absent both times. -/
theorem destroy_lifecycle_c4 (w : World) :
    (∀ r, w.activeInstance = some r →
        (destroy w).pending = w.pending.filter (fun i => i ≠ r.frameRequestId)
        ∧ r.frameRequestId ∉ (destroy w).pending)
    ∧ (w.activeInstance = none → destroy w = w)
    ∧ (destroy w).activeInstance = none
    ∧ (destroy (destroy w)).activeInstance = none
    ∧ destroy (destroy w) = destroy w := by
  have hnone : (destroy w).activeInstance = none := by
    cases h : w.activeInstance <;> simp [destroy, h, cancelAnimationFrame]
  have htwice : destroy (destroy w) = destroy w := destroy_of_none _ hnone
  refine ⟨?_, fun h => destroy_of_none w h, hnone, ?_, htwice⟩
  · intro r h
    refine ⟨by simp [destroy, h, cancelAnimationFrame], ?_⟩
    simp [destroy, h, cancelAnimationFrame, List.mem_filter]
  · rw [htwice]; exact hnone

/-- C4 witness: destroying the sample world clears the singleton and the
active instance's callback handle 3 is no longer pending. -/
theorem destroy_lifecycle_c4_witness :
    (destroy sampleWorld).activeInstance = none
    ∧ sampleState.frameRequestId ∉ (destroy sampleWorld).pending := by
  have h := destroy_lifecycle_c4 sampleWorld
  exact ⟨h.2.2.1, (h.1 sampleState rfl).2⟩

/-- C5: calling `initialize` again while an instance is active installs the
new instance as the singleton without cancelling the previous instance's
scheduled callback (the callbacks are distinct and the old one stays
pending), and a subsequent `destroy()` removes only the new instance's
callback while the orphaned one stays pending. -/
theorem double_init_orphans_c5 (ui1 ui2 : GameUIManager)
    (octx1 octx2 : Nat) (w : World) :
    ((initRenderer ui2 octx2 (initRenderer ui1 octx1 w).2).2).activeInstance
      = some (initRenderer ui2 octx2 (initRenderer ui1 octx1 w).2).1
    ∧ (initRenderer ui1 octx1 w).1.frameRequestId
        ≠ (initRenderer ui2 octx2 (initRenderer ui1 octx1 w).2).1.frameRequestId
    ∧ (initRenderer ui2 octx2 (initRenderer ui1 octx1 w).2).2.pending
        = (initRenderer ui1 octx1 w).2.pending
          ++ [(initRenderer ui2 octx2 (initRenderer ui1 octx1 w).2).1.frameRequestId]
    ∧ (initRenderer ui1 octx1 w).1.frameRequestId
        ∈ (initRenderer ui2 octx2 (initRenderer ui1 octx1 w).2).2.pending
    ∧ (initRenderer ui1 octx1 w).1.frameRequestId
        ∈ (destroy (initRenderer ui2 octx2 (initRenderer ui1 octx1 w).2).2).pending
    ∧ (initRenderer ui2 octx2 (initRenderer ui1 octx1 w).2).1.frameRequestId
        ∉ (destroy (initRenderer ui2 octx2 (initRenderer ui1 octx1 w).2).2).pending := by
  refine ⟨rfl, ?_, rfl, ?_, ?_, ?_⟩
  · simp [initRenderer, constructRenderer, loopStep, requestAnimationFrame,
          mkInitialState, loopDrawState]
  · simp [initRenderer, constructRenderer, loopStep, requestAnimationFrame,
          mkInitialState, loopDrawState]
  · simp [initRenderer, constructRenderer, loopStep, requestAnimationFrame,
          mkInitialState, loopDrawState, destroy, cancelAnimationFrame,
          List.mem_filter]
  · simp [initRenderer, constructRenderer, loopStep, requestAnimationFrame,
          mkInitialState, loopDrawState, destroy, cancelAnimationFrame,
          List.mem_filter]

/-- C6: after `destroy()` followed by `initialize()`, the fresh instance's
frame counter is initialised to 0 by the constructor, its scheduled
callback is pending (the loop is active), and it is installed as the
singleton. -/
theorem destroy_then_init_fresh_c6 (ui : GameUIManager) (octx : Nat)
    (w : World) :
    (mkInitialState ui octx (destroy w)).frameCount = 0
    ∧ (initRenderer ui octx (destroy w)).1.frameRequestId
        ∈ (initRenderer ui octx (destroy w)).2.pending
    ∧ (initRenderer ui octx (destroy w)).2.activeInstance
        = some (initRenderer ui octx (destroy w)).1 := by
  refine ⟨rfl, ?_, rfl⟩
  simp [initRenderer, constructRenderer, loopStep, requestAnimationFrame,
        mkInitialState, loopDrawState]

/-- C7: for every positive interval, `debug(interval)` returns true exactly
when `frameCount % interval == 0`, and calling `debug()` with no argument
uses the default interval 120. (JavaScript `%` on a non-negative integer
frame count and a positive integer interval agrees with `Nat` mod; the
degenerate `interval = 0` case is NaN-valued in JavaScript and excluded.) -/
theorem debug_mod_c7 (r : RendererState) (interval : Nat) :
    (0 < interval → (debug r interval = true ↔ r.frameCount % interval = 0))
    ∧ debugDefault r = debug r 120 := by
  refine ⟨fun _ => ?_, rfl⟩
  simp [debug]

/-- C7 witness: on frame 240 with interval 120, `debug` returns true. -/
theorem debug_mod_c7_witness : debug sampleState 120 = true := by
  have h := debug_mod_c7 sampleState 120
  exact (h.1 (by decide)).mpr (by decide)

/-- C8: each loop iteration samples `Date.now()` exactly once, at the start
of the iteration (right after the frame-counter increment and before the
draw phase), the draw phase itself never re-samples the clock, and the
timestamp handed to `queuePlanets` is exactly that sampled value. -/
theorem timestamp_once_c8 (r : RendererState) (w : World) :
    ((loopStep r w).2.2).countP isSampleEvent = 1
    ∧ ((loopStep r w).2.2).take 2
        = [RenderEvent.incrementFrameCount, RenderEvent.sampleNow w.clock]
    ∧ planetTimes ((loopStep r w).2.2) = [w.clock]
    ∧ (drawTrace (loopDrawState r w)).countP isSampleEvent = 0 := by
  obtain ⟨fc, nw, fri, octx, ⟨locs, chunks, pm⟩⟩ := r
  cases pm <;> exact ⟨rfl, rfl, rfl, rfl⟩

/-- C9: when the state provider exposes a plugin manager,
`drawAllRunningPlugins` is invoked exactly once per draw phase, as its very
last operation, with the overlay surface's 2D drawing context; when the
plugin manager is absent, the draw phase still completes (all 21 other
operations run) and no plugin draw happens. -/
theorem plugin_hook_last_c9 (r : RendererState) :
    (r.gameUIManager.pluginManager.isSome = true →
        (drawTrace r).countP isPluginDrawEvent = 1
        ∧ (drawTrace r).getLast?
            = some (RenderEvent.drawAllRunningPlugins r.overlayCtx))
    ∧ (r.gameUIManager.pluginManager = none →
        (drawTrace r).countP isPluginDrawEvent = 0
        ∧ (drawTrace r).getLast? = some RenderEvent.getPluginManager
        ∧ (drawTrace r).length = 21) := by
  obtain ⟨fc, nw, fri, octx, ⟨locs, chunks, pm⟩⟩ := r
  cases pm with
  | none => exact ⟨fun hs => Bool.noConfusion hs, fun _ => ⟨rfl, rfl, rfl⟩⟩
  | some p => exact ⟨fun _ => ⟨rfl, rfl⟩, fun hn => Option.noConfusion hn⟩

/-- C9 witness: with the sample state's plugin manager present, the last
draw-phase operation is the plugin draw with the overlay context. -/
theorem plugin_hook_last_c9_witness :
    (drawTrace sampleState).getLast?
      = some (RenderEvent.drawAllRunningPlugins sampleState.overlayCtx) := by
  have h := (plugin_hook_last_c9 sampleState).1 (by decide)
  exact h.2

/-- C10: the loop increments the frame counter before the draw phase runs
(the draw-phase state always carries `frameCount + 1 ≥ 1`, and the
increment is the first operation of the iteration trace), and since the
first iteration runs synchronously inside the constructor, the instance
returned by `initialize` already has frame counter 1. -/
theorem frame_counter_positive_c10 (r : RendererState) (w : World)
    (ui : GameUIManager) (octx : Nat) :
    (loopDrawState r w).frameCount = r.frameCount + 1
    ∧ 1 ≤ (loopDrawState r w).frameCount
    ∧ (initRenderer ui octx w).1.frameCount = 1
    ∧ ((loopStep r w).2.2).head? = some RenderEvent.incrementFrameCount := by
  refine ⟨rfl, ?_, rfl, rfl⟩
  simp [loopDrawState]

end DFView
